import Mathlib

/-
Verification of the desktop video-create route
(apps/web/app/api/desktop/video/create/route.ts).

The route exports two handlers, OPTIONS and GET.  The embedding below is a
direct shallow translation of the TypeScript source: JavaScript strings
become Lean String, `undefined`/`null` inputs become Option, the request
environment (process.env) becomes an explicit Env record, the external
collaborators (session lookup, id generation, current date, fetch outcome)
become explicit oracle parameters, and the handler side effects (cookie
store, database rows, outbound HTTP calls) become an explicit World state
plus an ordered event trace describing the sequence of effects each handler
performs before it returns its Response.
-/

namespace Cap

/-- The space character, the separator used by the `split(" ")` call in the
route. -/
def spaceChar : Char := Char.ofNat 32

/-- JavaScript `String.prototype.split` with a single-character separator,
on the underlying character list: consecutive separators produce empty
fields and the result is never empty. -/
def splitOnChar (sep : Char) : List Char → List (List Char)
  | [] => [[]]
  | c :: cs =>
    if c = sep then [] :: splitOnChar sep cs
    else
      match splitOnChar sep cs with
      | [] => [[c]]
      | h :: t => (c :: h) :: t

/-- JavaScript `s.split(" ")`. -/
def jsSplitSpace (s : String) : List String :=
  (splitOnChar spaceChar s.data).map (fun l => { data := l })

/-- JavaScript `x || null` applied to the result of
`searchParams.get("origin")`: the empty string is falsy and collapses to
null. -/
def jsOrNull : Option String → Option String
  | none => none
  | some s => if s == "" then none else some s

/-- JavaScript truthiness of a string-or-undefined value: undefined and the
empty string are falsy. -/
def jsTruthyOpt : Option String → Bool
  | none => false
  | some s => !(s == "")

/-- JavaScript string coercion of a string-or-undefined value inside string
concatenation: undefined prints as "undefined". -/
def jsStr : Option String → String
  | some s => s
  | none => "undefined"

/-- The `allowedOrigins` constant of the route: the configured public URL
(when the environment variable is set) plus four fixed origins.  When
NEXT_PUBLIC_URL is undefined the JavaScript array holds `undefined`, which
no string can match in `includes`, so it is dropped here. -/
def allowedOrigins (publicUrl : Option String) : List String :=
  (match publicUrl with
    | some u => [u]
    | none => []) ++
    ["http://localhost:3001", "tauri://localhost", "http://tauri.localhost",
      "https://tauri.localhost"]

/-- The four CORS headers every response of the route carries. -/
structure CorsHeaders where
  allowOrigin : String
  allowCredentials : String
  allowMethods : String
  allowHeaders : String
deriving DecidableEq

/-- The header object literal of the OPTIONS response (route lines 23-33),
transcribed verbatim: the allow-origin value is the inline conditional
`origin and allowedOrigins.includes(origin) ? origin :
allowedOrigins.includes(originalOrigin) ? originalOrigin : "null"`. -/
def optionsCorsHeaders (A : List String) (origin : Option String)
    (originalOrigin : String) : CorsHeaders :=
  { allowOrigin :=
      if jsTruthyOpt origin && A.contains (origin.getD "") then origin.getD ""
      else if A.contains originalOrigin then originalOrigin
      else "null",
    allowCredentials := "true",
    allowMethods := "GET, OPTIONS",
    allowHeaders := "Authorization, sentry-trace, baggage" }

/-- The header object literal of the GET 401 response (route lines 62-72),
transcribed verbatim; textually identical to the OPTIONS site. -/
def get401CorsHeaders (A : List String) (origin : Option String)
    (originalOrigin : String) : CorsHeaders :=
  { allowOrigin :=
      if jsTruthyOpt origin && A.contains (origin.getD "") then origin.getD ""
      else if A.contains originalOrigin then originalOrigin
      else "null",
    allowCredentials := "true",
    allowMethods := "GET, OPTIONS",
    allowHeaders := "Authorization, sentry-trace, baggage" }

/-- The header object literal of the GET 200 response (route lines 120-131),
transcribed verbatim; textually identical to the OPTIONS site. -/
def get200CorsHeaders (A : List String) (origin : Option String)
    (originalOrigin : String) : CorsHeaders :=
  { allowOrigin :=
      if jsTruthyOpt origin && A.contains (origin.getD "") then origin.getD ""
      else if A.contains originalOrigin then originalOrigin
      else "null",
    allowCredentials := "true",
    allowMethods := "GET, OPTIONS",
    allowHeaders := "Authorization, sentry-trace, baggage" }

/-- The CORS resolver exactly as the specification words it (section 4.1):
if origin is present and a member of the allow-list return it, else if the
request origin is a member return it, else return the literal "null".
Written from the specification text, to be compared with the transcribed
header sites. -/
def specCorsResolver (A : List String) (origin : Option String)
    (requestOrigin : String) : String :=
  match origin with
  | some o =>
    if A.contains o then o
    else if A.contains requestOrigin then requestOrigin
    else "null"
  | none =>
    if A.contains requestOrigin then requestOrigin
    else "null"

/-- Process environment variables the route reads. -/
structure Env where
  publicUrl : Option String
  awsRegion : Option String
  awsBucket : Option String
  isCap : Option String
  environment : Option String
  dubApiKey : Option String
deriving DecidableEq

/-- The parts of the incoming request the route reads: the authorization
header (null when absent), the raw `origin` query parameter (null when
absent), and `req.nextUrl.origin`. -/
structure Req where
  authorization : Option String
  originParam : Option String
  requestOrigin : String
deriving DecidableEq

/-- A cookie as written by `cookies().set` in the route. -/
structure Cookie where
  name : String
  value : String
  path : String
  sameSite : String
  secure : Bool
  httpOnly : Bool
deriving DecidableEq

/-- The user object returned by getCurrentUser (external collaborator); the
route only reads its userId field. -/
structure User where
  userId : String
deriving DecidableEq

/-- A row of the videos table as inserted by the route. -/
structure VideoRecord where
  id : String
  name : String
  ownerId : String
  awsRegion : Option String
  awsBucket : Option String
deriving DecidableEq

/-- The outbound short-link registration request the route sends to the
dub.co API. -/
structure DubCall where
  url : String
  authHeader : String
  bodyUrl : String
  bodyKey : String
deriving DecidableEq

/-- The mutable state a handler can affect: the cookie store, the videos
table and the list of outbound HTTP calls issued. -/
structure World where
  cookies : List Cookie
  videos : List VideoRecord
  outbound : List DubCall
deriving DecidableEq

/-- A JSON field value appearing in the route's response bodies. -/
inductive JVal where
  | jbool (b : Bool)
  | jstr (s : String)
deriving DecidableEq

/-- An HTTP response of the route: status, an optional JSON object body
(none models the null body of the preflight response; JSON.stringify drops
fields whose value is undefined, so absent fields are omitted from the
list), and the CORS headers. -/
structure Response where
  status : Nat
  body : Option (List (String × JVal))
  headers : CorsHeaders
deriving DecidableEq

/-- The ordered effects a handler performs before returning. -/
inductive Event where
  | cookieSet (c : Cookie)
  | userResolved (u : Option String)
  | dbInsert (v : VideoRecord)
  | fetchSettled (ok : Bool)
  | responded
deriving DecidableEq

/-- The session cookie the token bridge writes:
`cookies().set` with name next-auth.session-token, path "/",
sameSite "none", secure and httpOnly. -/
def bearerCookie (t : String) : Cookie :=
  { name := "next-auth.session-token", value := t, path := "/",
    sameSite := "none", secure := true, httpOnly := true }

/-- `req.headers.get("authorization")?.split(" ")[1]`: the second field of
the space-split header, undefined when the header is absent or has no
second field. -/
def extractToken (auth : Option String) : Option String :=
  match auth with
  | none => none
  | some h => (jsSplitSpace h).get? 1

/-- `cookies().set`: replaces a cookie of the same name, otherwise
appends. -/
def setCookie (jar : List Cookie) (c : Cookie) : List Cookie :=
  if jar.any (fun x => x.name == c.name) then
    jar.map (fun x => if x.name == c.name then c else x)
  else jar ++ [c]

/-- The cookie store after the token bridge at the top of GET: when the
extracted token is truthy the session cookie is set, otherwise the store is
untouched. -/
def bridgedCookies (req : Req) (w : World) : List Cookie :=
  match extractToken req.authorization with
  | some t => if t == "" then w.cookies else setCookie w.cookies (bearerCookie t)
  | none => w.cookies

/-- The trace of the token bridge: a single cookieSet event when the
extracted token is truthy. -/
def bridgeEvents (req : Req) : List Event :=
  match extractToken req.authorization with
  | some t => if t == "" then [] else [Event.cookieSet (bearerCookie t)]
  | none => []

/-- The current date as the route observes it: `date.getDate()` (day of
month), the full month name from toLocaleString with the long month
option, and `date.getFullYear()`. -/
structure JsDate where
  day : Nat
  monthName : String
  year : Nat
deriving DecidableEq

/-- The date format of the route:
`date.getDate()` space full month name space `date.getFullYear()`. -/
def formattedDate (d : JsDate) : String :=
  Nat.repr d.day ++ " " ++ d.monthName ++ " " ++ Nat.repr d.year

/-- The display name given to the inserted video row. -/
def videoName (d : JsDate) : String :=
  "My Cap Recording - " ++ formattedDate d

/-- The production gate of the short-link call:
`process.env.NEXT_PUBLIC_IS_CAP and
process.env.NEXT_PUBLIC_ENVIRONMENT === "production"`. -/
def prodFlags (env : Env) : Bool :=
  jsTruthyOpt env.isCap && (env.environment == some "production")

/-- The dub.co request the route issues: POST to the links endpoint with a
bearer API key and a JSON body mapping the new id to the public /s/ URL. -/
def dubCall (env : Env) (id : String) : DubCall :=
  { url := "https://api.dub.co/links?projectSlug=cap",
    authHeader := "Bearer " ++ jsStr env.dubApiKey,
    bodyUrl := jsStr env.publicUrl ++ "/s/" ++ id,
    bodyKey := id }

/-- The videos row inserted by the route. -/
def videoOf (env : Env) (u : User) (newId : String) (d : JsDate) :
    VideoRecord :=
  { id := newId, name := videoName d, ownerId := u.userId,
    awsRegion := env.awsRegion, awsBucket := env.awsBucket }

/-- The 200 response body: JSON.stringify of
id, user_id, aws_region, aws_bucket, with undefined fields dropped. -/
def successBody (env : Env) (newId : String) (u : User) :
    List (String × JVal) :=
  [("id", JVal.jstr newId), ("user_id", JVal.jstr u.userId)]
    ++ (match env.awsRegion with
        | some r => [("aws_region", JVal.jstr r)]
        | none => [])
    ++ (match env.awsBucket with
        | some b => [("aws_bucket", JVal.jstr b)]
        | none => [])

/-- The OPTIONS handler: a 200 response with null body and the CORS
headers; it reads nothing but the origin query parameter and the request
origin and performs no effect. -/
def OPTIONS (env : Env) (req : Req) (w : World) :
    Response × World × List Event :=
  ({ status := 200, body := none,
     headers := optionsCorsHeaders (allowedOrigins env.publicUrl)
       (jsOrNull req.originParam) req.requestOrigin },
   w, [])

/-- The GET handler.  Oracle parameters stand for the external
collaborators: getUser is getCurrentUser as a function of the cookie store
it sees, newId is the nanoId result, date is (getDate, long month name,
getFullYear) of the current date, fetchOk is whether the awaited dub.co
promise chain succeeded.  The returned trace lists the effects in program
order; because the source awaits the fetch, the fetchSettled event precedes
the responded event. -/
def GET (env : Env) (req : Req) (getUser : List Cookie → Option User)
    (newId : String) (date : JsDate) (fetchOk : Bool)
    (w : World) : Response × World × List Event :=
  match getUser (bridgedCookies req w) with
  | none =>
      ({ status := 401, body := some [("error", JVal.jbool true)],
         headers := get401CorsHeaders (allowedOrigins env.publicUrl)
           (jsOrNull req.originParam) req.requestOrigin },
       { w with cookies := bridgedCookies req w },
       bridgeEvents req ++ [Event.userResolved none, Event.responded])
  | some u =>
      ({ status := 200, body := some (successBody env newId u),
         headers := get200CorsHeaders (allowedOrigins env.publicUrl)
           (jsOrNull req.originParam) req.requestOrigin },
       { cookies := bridgedCookies req w,
         videos := w.videos ++ [videoOf env u newId date],
         outbound :=
           if prodFlags env then w.outbound ++ [dubCall env newId]
           else w.outbound },
       bridgeEvents req
         ++ [Event.userResolved (some u.userId),
             Event.dbInsert (videoOf env u newId date)]
         ++ (if prodFlags env then [Event.fetchSettled fetchOk] else [])
         ++ [Event.responded])

/-- Whether an event is the settling of the outbound fetch. -/
def isSettled : Event → Bool
  | Event.fetchSettled _ => true
  | _ => false

/-- Whether an event is the return of the HTTP response. -/
def isResponded : Event → Bool
  | Event.responded => true
  | _ => false

/-- Whether, in a trace, some fetch settles strictly before the response is
returned: scanning left to right, a fetchSettled event is found with a
responded event somewhere after it, no responded event intervening
before. -/
def settleBeforeRespond : List Event → Bool
  | [] => false
  | e :: tl =>
    if isSettled e then tl.any isResponded
    else if isResponded e then false
    else settleBeforeRespond tl

/-- Field lookup in an optional JSON object body. -/
def lookupField (b : Option (List (String × JVal))) (k : String) :
    Option JVal :=
  match b with
  | none => none
  | some l => (l.find? (fun p => p.1 == k)).map Prod.snd

/-- A concrete hosted-production environment. -/
def envP : Env :=
  { publicUrl := some "https://cap.so", awsRegion := some "us-east-1",
    awsBucket := some "b1", isCap := some "true",
    environment := some "production", dubApiKey := some "k" }

/-- A concrete environment with every variable unset. -/
def envN : Env :=
  { publicUrl := none, awsRegion := none, awsBucket := none, isCap := none,
    environment := none, dubApiKey := none }

/-- A concrete request carrying a well-formed bearer header. -/
def reqP : Req :=
  { authorization := some "Bearer tok1",
    originParam := some "http://localhost:3001",
    requestOrigin := "https://cap.so" }

/-- A concrete request whose authorization header uses the Basic scheme. -/
def reqBasic : Req :=
  { authorization := some "Basic xyz", originParam := none,
    requestOrigin := "https://cap.so" }

/-- A concrete request whose authorization header is "Basic " with a
trailing space: it contains a space but the field after the first space is
empty. -/
def reqTrail : Req :=
  { authorization := some "Basic ", originParam := none,
    requestOrigin := "https://cap.so" }

/-- A concrete session oracle resolving user u1 on every cookie store. -/
def getUserP : List Cookie → Option User := fun _ => some { userId := "u1" }

/-- A concrete session oracle resolving no user. -/
def getUserNone : List Cookie → Option User := fun _ => none

/-- A concrete request-processing date. -/
def dateP : JsDate := { day := 11, monthName := "October", year := 2026 }

/-- The empty starting world. -/
def w0 : World := { cookies := [], videos := [], outbound := [] }

/- Helper lemmas shared by the claim theorems. -/

theorem allowOrigin_def (A : List String) (origin : Option String)
    (ro : String) :
    (optionsCorsHeaders A origin ro).allowOrigin =
      if jsTruthyOpt origin && A.contains (origin.getD "") then origin.getD ""
      else if A.contains ro then ro
      else "null" := rfl

theorem allowOrigin_mem_or_null (A : List String) (origin : Option String)
    (ro : String) :
    (optionsCorsHeaders A origin ro).allowOrigin ∈ A ∨
      (optionsCorsHeaders A origin ro).allowOrigin = "null" := by
  rw [allowOrigin_def]
  split
  · next h =>
    simp only [Bool.and_eq_true] at h
    exact Or.inl (List.elem_iff.mp h.2)
  · split
    · next h2 => exact Or.inl (List.elem_iff.mp h2)
    · exact Or.inr rfl

theorem allowOrigin_eq_specResolver (A : List String) (raw : Option String)
    (ro : String) :
    (optionsCorsHeaders A (jsOrNull raw) ro).allowOrigin =
      specCorsResolver A (jsOrNull raw) ro := by
  cases raw with
  | none => rfl
  | some s =>
    by_cases hs : (s == "") = true
    · simp [jsOrNull, hs, allowOrigin_def, specCorsResolver, jsTruthyOpt]
    · simp [jsOrNull, hs, allowOrigin_def, specCorsResolver, jsTruthyOpt]

theorem get_headers_eq (env : Env) (req : Req)
    (getUser : List Cookie → Option User) (newId : String) (date : JsDate)
    (fetchOk : Bool) (w : World) :
    (GET env req getUser newId date fetchOk w).1.headers =
      optionsCorsHeaders (allowedOrigins env.publicUrl)
        (jsOrNull req.originParam) req.requestOrigin := by
  cases hg : getUser (bridgedCookies req w) <;> simp only [GET, hg] <;> rfl

/-- Claim C3 (confirmed): for every pair of a raw origin query parameter
(normalised by the route's or-null coercion, under which the empty string
counts as absent) and a request origin, the CORS resolver of the route
returns the origin when it is present and a member of the allow-list,
otherwise the request origin when that is a member, otherwise the literal
"null" — that is, the transcribed header site computes exactly the
resolver of specification section 4.1. -/
theorem cors_resolver_follows_spec (pu : Option String) (raw : Option String)
    (ro : String) :
    (optionsCorsHeaders (allowedOrigins pu) (jsOrNull raw) ro).allowOrigin =
      specCorsResolver (allowedOrigins pu) (jsOrNull raw) ro :=
  allowOrigin_eq_specResolver (allowedOrigins pu) raw ro

/-- Claim C7 (confirmed): the CORS header construction is behaviourally
identical at the three response sites: for every allow-list, origin and
request origin, the OPTIONS preflight site, the GET 401 site and the GET
200 site produce the same Access-Control-Allow-Origin value and the same
fixed Allow-Credentials, Allow-Methods and Allow-Headers headers. -/
theorem cors_sites_identical (A : List String) (origin : Option String)
    (ro : String) :
    optionsCorsHeaders A origin ro = get401CorsHeaders A origin ro ∧
      get401CorsHeaders A origin ro = get200CorsHeaders A origin ro :=
  ⟨rfl, rfl⟩

/-- Claim C8 (confirmed): for every request the OPTIONS handler returns
status 200 with an empty body and the CORS headers of specification
section 4.1, leaves the world unchanged with an empty effect trace (no
cookie write, no database insert, no outbound call), and its result does
not depend on the authorization header. -/
theorem options_contract (env : Env) (req : Req) (w : World) :
    OPTIONS env req w =
      ({ status := 200, body := none,
         headers := optionsCorsHeaders (allowedOrigins env.publicUrl)
           (jsOrNull req.originParam) req.requestOrigin }, w, []) ∧
    (OPTIONS env req w).1.headers.allowOrigin =
      specCorsResolver (allowedOrigins env.publicUrl)
        (jsOrNull req.originParam) req.requestOrigin ∧
    (∀ a : Option String,
      OPTIONS env { req with authorization := a } w = OPTIONS env req w) :=
  ⟨rfl,
   allowOrigin_eq_specResolver (allowedOrigins env.publicUrl)
     req.originParam req.requestOrigin,
   fun _ => rfl⟩

/-- Claim C9 (confirmed): on every response path (preflight, 401, 200) the
Access-Control-Allow-Origin value is either a member of the allow-list or
the literal "null"; consequently a caller-supplied origin parameter outside
the allow-list can appear in that header only when it is the very string
"null", so a foreign origin is never echoed back. -/
theorem allow_origin_in_allowlist_or_null (env : Env) (req : Req)
    (getUser : List Cookie → Option User) (newId : String) (date : JsDate)
    (fetchOk : Bool) (w : World) :
    ((OPTIONS env req w).1.headers.allowOrigin ∈ allowedOrigins env.publicUrl ∨
      (OPTIONS env req w).1.headers.allowOrigin = "null") ∧
    ((GET env req getUser newId date fetchOk w).1.headers.allowOrigin ∈
        allowedOrigins env.publicUrl ∨
      (GET env req getUser newId date fetchOk w).1.headers.allowOrigin =
        "null") ∧
    (∀ o : String, jsOrNull req.originParam = some o →
      o ∉ allowedOrigins env.publicUrl →
      ((OPTIONS env req w).1.headers.allowOrigin = o ∨
        (GET env req getUser newId date fetchOk w).1.headers.allowOrigin = o) →
      o = "null") := by
  have hopt : (OPTIONS env req w).1.headers =
      optionsCorsHeaders (allowedOrigins env.publicUrl)
        (jsOrNull req.originParam) req.requestOrigin := rfl
  have hget := get_headers_eq env req getUser newId date fetchOk w
  refine ⟨?_, ?_, ?_⟩
  · rw [hopt]
    exact allowOrigin_mem_or_null _ _ _
  · rw [hget]
    exact allowOrigin_mem_or_null _ _ _
  · intro o _ hmem hcase
    have hdisj := allowOrigin_mem_or_null (allowedOrigins env.publicUrl)
      (jsOrNull req.originParam) req.requestOrigin
    rcases hcase with h | h
    · rw [hopt] at h
      rcases hdisj with hm | hn
      · rw [h] at hm
        exact absurd hm hmem
      · rw [h] at hn
        exact hn
    · rw [hget] at h
      rcases hdisj with hm | hn
      · rw [h] at hm
        exact absurd hm hmem
      · rw [h] at hn
        exact hn

/-- Claim C1 (confirmed): for every GET request for which a user resolves
from the (bridged) session, the handler inserts exactly one videos row
whose ownerId is the resolved user's userId and whose name is
"My Cap Recording - " followed by day, full month name and year of the
processing date, and returns status 200 with a JSON body whose id field is
the freshly generated identifier used in the insert and whose user_id
field is the same userId. -/
theorem get_authed_creates_record (env : Env) (req : Req)
    (getUser : List Cookie → Option User) (newId : String) (date : JsDate)
    (fetchOk : Bool) (w : World) (u : User)
    (hu : getUser (bridgedCookies req w) = some u) :
    (GET env req getUser newId date fetchOk w).2.1.videos =
      w.videos ++
        [{ id := newId, name := "My Cap Recording - " ++ formattedDate date,
           ownerId := u.userId, awsRegion := env.awsRegion,
           awsBucket := env.awsBucket }] ∧
    (GET env req getUser newId date fetchOk w).1.status = 200 ∧
    lookupField (GET env req getUser newId date fetchOk w).1.body "id" =
      some (JVal.jstr newId) ∧
    lookupField (GET env req getUser newId date fetchOk w).1.body "user_id" =
      some (JVal.jstr u.userId) := by
  simp only [GET, hu]
  refine ⟨?_, ?_, ?_, ?_⟩ <;> trivial

/-- Witness for C1: a concrete authenticated request for user u1 in the
hosted-production environment. -/
theorem get_authed_creates_record_witness :
    getUserP (bridgedCookies reqP w0) = some { userId := "u1" } ∧
    ((GET envP reqP getUserP "vid1" dateP true w0).2.1.videos =
      w0.videos ++
        [{ id := "vid1", name := "My Cap Recording - " ++ formattedDate dateP,
           ownerId := "u1", awsRegion := envP.awsRegion,
           awsBucket := envP.awsBucket }] ∧
     (GET envP reqP getUserP "vid1" dateP true w0).1.status = 200 ∧
     lookupField (GET envP reqP getUserP "vid1" dateP true w0).1.body "id" =
       some (JVal.jstr "vid1") ∧
     lookupField (GET envP reqP getUserP "vid1" dateP true w0).1.body
       "user_id" = some (JVal.jstr "u1")) :=
  ⟨rfl,
   get_authed_creates_record envP reqP getUserP "vid1" dateP true w0
     { userId := "u1" } rfl⟩

/-- Claim C2 (confirmed): for every GET request for which no user resolves
from the (bridged) session, the handler returns status 401 with exactly the
JSON body whose single field error is true, and neither the videos table
nor the outbound-call list changes: a video row is created only when a
session resolves. -/
theorem get_unauthed_401 (env : Env) (req : Req)
    (getUser : List Cookie → Option User) (newId : String) (date : JsDate)
    (fetchOk : Bool) (w : World)
    (hu : getUser (bridgedCookies req w) = none) :
    (GET env req getUser newId date fetchOk w).1.status = 401 ∧
    (GET env req getUser newId date fetchOk w).1.body =
      some [("error", JVal.jbool true)] ∧
    (GET env req getUser newId date fetchOk w).2.1.videos = w.videos ∧
    (GET env req getUser newId date fetchOk w).2.1.outbound = w.outbound := by
  simp only [GET, hu]
  refine ⟨?_, ?_, ?_, ?_⟩ <;> trivial

/-- Witness for C2: a concrete request whose session resolves no user. -/
theorem get_unauthed_401_witness :
    getUserNone (bridgedCookies reqP w0) = none ∧
    ((GET envN reqP getUserNone "vid9" dateP true w0).1.status = 401 ∧
     (GET envN reqP getUserNone "vid9" dateP true w0).1.body =
       some [("error", JVal.jbool true)] ∧
     (GET envN reqP getUserNone "vid9" dateP true w0).2.1.videos =
       w0.videos ∧
     (GET envN reqP getUserNone "vid9" dateP true w0).2.1.outbound =
       w0.outbound) :=
  ⟨rfl, get_unauthed_401 envN reqP getUserNone "vid9" dateP true w0 rfl⟩

/-- Claim C5 (confirmed): for every successful GET request the short-link
registration call is attempted exactly when the production gate holds
(NEXT_PUBLIC_IS_CAP truthy and NEXT_PUBLIC_ENVIRONMENT equal to
"production"), and the outcome of that call never changes the HTTP
response (status, body and headers are the same for a succeeding and a
failing call). -/
theorem dub_call_iff_prod_flags (env : Env) (req : Req)
    (getUser : List Cookie → Option User) (newId : String) (date : JsDate)
    (fetchOk : Bool) (w : World) (u : User)
    (hu : getUser (bridgedCookies req w) = some u) :
    ((GET env req getUser newId date fetchOk w).2.1.outbound =
        w.outbound ++ [dubCall env newId] ↔ prodFlags env = true) ∧
    (prodFlags env = false →
      (GET env req getUser newId date fetchOk w).2.1.outbound =
        w.outbound) ∧
    (∀ o1 o2 : Bool,
      (GET env req getUser newId date o1 w).1 =
        (GET env req getUser newId date o2 w).1) := by
  simp only [GET, hu]
  refine ⟨?_, ?_, ?_⟩
  · cases hp : prodFlags env
    · simp [hp]
    · simp [hp]
  · intro hp
    simp [hp]
  · intro o1 o2
    trivial

/-- Witness for C5: the concrete hosted-production environment, where the
gate holds and the call is recorded. -/
theorem dub_call_iff_prod_flags_witness :
    getUserP (bridgedCookies reqP w0) = some { userId := "u1" } ∧
    (((GET envP reqP getUserP "vid1" dateP true w0).2.1.outbound =
        w0.outbound ++ [dubCall envP "vid1"] ↔ prodFlags envP = true) ∧
     (prodFlags envP = false →
       (GET envP reqP getUserP "vid1" dateP true w0).2.1.outbound =
         w0.outbound) ∧
     (∀ o1 o2 : Bool,
       (GET envP reqP getUserP "vid1" dateP o1 w0).1 =
         (GET envP reqP getUserP "vid1" dateP o2 w0).1)) :=
  ⟨rfl,
   dub_call_iff_prod_flags envP reqP getUserP "vid1" dateP true w0
     { userId := "u1" } rfl⟩

theorem bridgeEvents_any_false (req : Req) (p : Event → Bool)
    (hp : ∀ c, p (Event.cookieSet c) = false) :
    (bridgeEvents req).any p = false := by
  unfold bridgeEvents
  cases extractToken req.authorization with
  | none => rfl
  | some t =>
    by_cases ht : (t == "") = true
    · simp [ht]
    · simp [ht, hp]

theorem settleBeforeRespond_bridge (req : Req) (tl : List Event) :
    settleBeforeRespond (bridgeEvents req ++ tl) = settleBeforeRespond tl := by
  unfold bridgeEvents
  cases extractToken req.authorization with
  | none => rfl
  | some t =>
    by_cases ht : (t == "") = true
    · simp [ht]
    · simp [ht, settleBeforeRespond, isSettled, isResponded]

theorem bridgeEvents_of_token (req : Req) (t : String)
    (h : extractToken req.authorization = some t) (ht : t ≠ "") :
    bridgeEvents req = [Event.cookieSet (bearerCookie t)] := by
  unfold bridgeEvents
  rw [h]
  simp [ht]

theorem bridgeEvents_empty (req : Req)
    (h : extractToken req.authorization = none ∨
      extractToken req.authorization = some "") :
    bridgeEvents req = [] := by
  unfold bridgeEvents
  rcases h with h | h <;> simp [h]

theorem bridgedCookies_empty (req : Req) (w : World)
    (h : extractToken req.authorization = none ∨
      extractToken req.authorization = some "") :
    bridgedCookies req w = w.cookies := by
  unfold bridgedCookies
  rcases h with h | h <;> simp [h]

theorem splitOnChar_eq_single (sep : Char) (l : List Char)
    (h : ∀ c ∈ l, c ≠ sep) : splitOnChar sep l = [l] := by
  induction l with
  | nil => rfl
  | cons c cs ih =>
    have hc : c ≠ sep := h c (List.mem_cons_self c cs)
    have ih2 := ih (fun x hx => h x (List.mem_cons_of_mem c hx))
    simp [splitOnChar, hc, ih2]

theorem extractToken_no_space (h : String)
    (hns : ∀ c ∈ h.data, c ≠ spaceChar) :
    extractToken (some h) = none := by
  have hs := splitOnChar_eq_single spaceChar h.data hns
  simp [extractToken, jsSplitSpace, hs]

@[simp] theorem isSettled_cookieSet (c : Cookie) :
    isSettled (Event.cookieSet c) = false := rfl

@[simp] theorem isSettled_userResolved (u : Option String) :
    isSettled (Event.userResolved u) = false := rfl

@[simp] theorem isSettled_dbInsert (v : VideoRecord) :
    isSettled (Event.dbInsert v) = false := rfl

@[simp] theorem isSettled_fetchSettled (b : Bool) :
    isSettled (Event.fetchSettled b) = true := rfl

@[simp] theorem isSettled_responded : isSettled Event.responded = false := rfl

@[simp] theorem isResponded_cookieSet (c : Cookie) :
    isResponded (Event.cookieSet c) = false := rfl

@[simp] theorem isResponded_userResolved (u : Option String) :
    isResponded (Event.userResolved u) = false := rfl

@[simp] theorem isResponded_dbInsert (v : VideoRecord) :
    isResponded (Event.dbInsert v) = false := rfl

@[simp] theorem isResponded_fetchSettled (b : Bool) :
    isResponded (Event.fetchSettled b) = false := rfl

@[simp] theorem isResponded_responded :
    isResponded Event.responded = true := rfl

theorem get_trace_none (env : Env) (req : Req)
    (getUser : List Cookie → Option User) (newId : String) (date : JsDate)
    (fetchOk : Bool) (w : World)
    (hg : getUser (bridgedCookies req w) = none) :
    (GET env req getUser newId date fetchOk w).2.2 =
      bridgeEvents req ++ [Event.userResolved none, Event.responded] := by
  simp only [GET, hg]

theorem get_trace_some (env : Env) (req : Req)
    (getUser : List Cookie → Option User) (newId : String) (date : JsDate)
    (fetchOk : Bool) (w : World) (u : User)
    (hg : getUser (bridgedCookies req w) = some u) :
    (GET env req getUser newId date fetchOk w).2.2 =
      bridgeEvents req ++
        (Event.userResolved (some u.userId) ::
          Event.dbInsert (videoOf env u newId date) ::
          ((if prodFlags env then [Event.fetchSettled fetchOk] else []) ++
            [Event.responded])) := by
  simp only [GET, hg]
  simp [List.append_assoc]

/-- Counterexample for C4: in the concrete hosted-production run the GET
handler does attempt the short-link call, and in its effect trace the
settling of that call strictly precedes the return of the response — the
source awaits the fetch, so the response is NOT returned without waiting
for the call's outcome, refuting the fire-and-forget claim as stated. -/
theorem dub_call_not_awaited_cex :
    ((GET envP reqP getUserP "vid1" dateP true w0).2.2).any isSettled =
      true ∧
    settleBeforeRespond ((GET envP reqP getUserP "vid1" dateP true w0).2.2) =
      true := by
  exact ⟨rfl, rfl⟩

/-- Claim C4 (amended): the external short-link call is awaited: whenever
the GET trace contains the settling of the call, that settling precedes
the return of the response; the call's error handling is drop-only, so
neither the response nor the resulting world depends on whether the call
succeeded or failed. -/
theorem dub_call_awaited (env : Env) (req : Req)
    (getUser : List Cookie → Option User) (newId : String) (date : JsDate)
    (fetchOk : Bool) (w : World)
    (hatt : ((GET env req getUser newId date fetchOk w).2.2).any isSettled =
      true) :
    settleBeforeRespond ((GET env req getUser newId date fetchOk w).2.2) =
      true ∧
    (∀ o1 o2 : Bool,
      (GET env req getUser newId date o1 w).1 =
        (GET env req getUser newId date o2 w).1 ∧
      (GET env req getUser newId date o1 w).2.1 =
        (GET env req getUser newId date o2 w).2.1) := by
  constructor
  · cases hg : getUser (bridgedCookies req w) with
    | none =>
      exfalso
      rw [get_trace_none env req getUser newId date fetchOk w hg] at hatt
      rw [List.any_append,
        bridgeEvents_any_false req isSettled (fun c => rfl)] at hatt
      simp at hatt
    | some u =>
      rw [get_trace_some env req getUser newId date fetchOk w u hg] at hatt ⊢
      rw [settleBeforeRespond_bridge]
      rw [List.any_append,
        bridgeEvents_any_false req isSettled (fun c => rfl)] at hatt
      cases hp : prodFlags env with
      | false =>
        exfalso
        simp [hp] at hatt
      | true =>
        simp [hp, settleBeforeRespond]
  · intro o1 o2
    cases hg : getUser (bridgedCookies req w) <;> simp [GET, hg]

/-- Witness for the amended C4 at the concrete hosted-production run. -/
theorem dub_call_awaited_witness :
    ((GET envP reqP getUserP "vid7" dateP true w0).2.2).any isSettled =
      true ∧
    (settleBeforeRespond
        ((GET envP reqP getUserP "vid7" dateP true w0).2.2) = true ∧
     (∀ o1 o2 : Bool,
       (GET envP reqP getUserP "vid7" dateP o1 w0).1 =
         (GET envP reqP getUserP "vid7" dateP o2 w0).1 ∧
       (GET envP reqP getUserP "vid7" dateP o1 w0).2.1 =
         (GET envP reqP getUserP "vid7" dateP o2 w0).2.1)) :=
  ⟨rfl, dub_call_awaited envP reqP getUserP "vid7" dateP true w0 rfl⟩

/-- Counterexample for C6: the request whose authorization header is
"Basic xyz" yields no bearer token after the word Bearer (its first
whitespace-delimited word is "Basic"), yet the handler does write the
session cookie, with value "xyz" — refuting the claim's clause that no
cookie is written when no bearer token is present. -/
theorem cookie_bridge_scheme_cex :
    (jsSplitSpace "Basic xyz").get? 0 = some "Basic" ∧
    "Basic" ≠ "Bearer" ∧
    Event.cookieSet (bearerCookie "xyz") ∈
      (GET envN reqBasic getUserNone "vid2" dateP true w0).2.2 := by
  refine ⟨rfl, by decide, ?_⟩
  decide

/-- Claim C6 (amended): for every GET request whose authorization header
yields a nonempty second whitespace-delimited field (the scheme word is
not inspected), the handler sets that field as the session cookie named
next-auth.session-token with path "/", sameSite none, secure and httpOnly,
and it does so before resolving the current user; when the header yields
no such nonempty field, no cookie is written. -/
theorem cookie_bridge_sets_session_cookie (env : Env) (req : Req)
    (getUser : List Cookie → Option User) (newId : String) (date : JsDate)
    (fetchOk : Bool) (w : World) :
    (∀ t : String, extractToken req.authorization = some t → t ≠ "" →
      ∃ rest : List Event,
        (GET env req getUser newId date fetchOk w).2.2 =
          Event.cookieSet
            { name := "next-auth.session-token", value := t, path := "/",
              sameSite := "none", secure := true, httpOnly := true } ::
          Event.userResolved
            (Option.map User.userId (getUser (bridgedCookies req w))) ::
          rest) ∧
    ((extractToken req.authorization = none ∨
        extractToken req.authorization = some "") →
      ∀ c : Cookie,
        Event.cookieSet c ∉ (GET env req getUser newId date fetchOk w).2.2) := by
  constructor
  · intro t h ht
    have hb := bridgeEvents_of_token req t h ht
    cases hg : getUser (bridgedCookies req w) with
    | none =>
      refine ⟨[Event.responded], ?_⟩
      simp only [GET, hg, hb]
      rfl
    | some u =>
      refine ⟨Event.dbInsert (videoOf env u newId date) ::
        ((if prodFlags env then [Event.fetchSettled fetchOk] else []) ++
          [Event.responded]), ?_⟩
      simp only [GET, hg, hb]
      rfl
  · intro h c hc
    have hb := bridgeEvents_empty req h
    cases hg : getUser (bridgedCookies req w) with
    | none =>
      simp only [GET, hg, hb] at hc
      simp at hc
    | some u =>
      simp only [GET, hg, hb] at hc
      cases hp : prodFlags env with
      | false => simp [hp] at hc
      | true => simp [hp] at hc

/-- Counterexample for C10: the authorization header "Basic " contains a
space and its field after the first space exists but is empty; the claim
says that empty substring is set as the session-cookie value, yet the
handler writes no cookie at all (the empty token is falsy) and the cookie
store is unchanged. -/
theorem token_bridge_empty_token_cex :
    (jsSplitSpace "Basic ").get? 1 = some "" ∧
    (GET envN reqTrail getUserNone "vid3" dateP true w0).2.2 =
      [Event.userResolved none, Event.responded] ∧
    (GET envN reqTrail getUserNone "vid3" dateP true w0).2.1.cookies =
      w0.cookies := by
  exact ⟨rfl, rfl, rfl⟩

/-- Claim C10 (amended): the token bridge never checks the authentication
scheme: for every authorization header whose second whitespace-delimited
field is nonempty, that field becomes the session-cookie value regardless
of the first word; and for every header containing no space at all, or
whose field after the first space is empty, no cookie is written, the
cookie store is left untouched, and the request proceeds to session
resolution against that untouched store. -/
theorem token_bridge_scheme_agnostic (env : Env) (req : Req)
    (getUser : List Cookie → Option User) (newId : String) (date : JsDate)
    (fetchOk : Bool) (w : World) :
    (∀ h t : String, req.authorization = some h →
      (jsSplitSpace h).get? 1 = some t → t ≠ "" →
      ∃ rest : List Event,
        (GET env req getUser newId date fetchOk w).2.2 =
          Event.cookieSet (bearerCookie t) :: rest) ∧
    (∀ h : String, req.authorization = some h →
      ((∀ c ∈ h.data, c ≠ spaceChar) ∨ (jsSplitSpace h).get? 1 = some "") →
      ((∀ c : Cookie,
          Event.cookieSet c ∉ (GET env req getUser newId date fetchOk w).2.2) ∧
        (GET env req getUser newId date fetchOk w).2.1.cookies = w.cookies ∧
        Event.userResolved (Option.map User.userId (getUser w.cookies)) ∈
          (GET env req getUser newId date fetchOk w).2.2)) := by
  constructor
  · intro h t hreq hsplit ht
    have hx : extractToken req.authorization = some t := by
      rw [hreq]
      unfold extractToken
      exact hsplit
    have hb := bridgeEvents_of_token req t hx ht
    cases hg : getUser (bridgedCookies req w) with
    | none =>
      refine ⟨[Event.userResolved none, Event.responded], ?_⟩
      simp only [GET, hg, hb]
      rfl
    | some u =>
      refine ⟨Event.userResolved (some u.userId) ::
        Event.dbInsert (videoOf env u newId date) ::
        ((if prodFlags env then [Event.fetchSettled fetchOk] else []) ++
          [Event.responded]), ?_⟩
      simp only [GET, hg, hb]
      rfl
  · intro h hreq hcase
    have hno : extractToken req.authorization = none ∨
        extractToken req.authorization = some "" := by
      rcases hcase with hns | hemp
      · refine Or.inl ?_
        rw [hreq]
        exact extractToken_no_space h hns
      · refine Or.inr ?_
        rw [hreq]
        unfold extractToken
        exact hemp
    have hb := bridgeEvents_empty req hno
    have hjar := bridgedCookies_empty req w hno
    refine ⟨?_, ?_, ?_⟩
    · intro c hc
      cases hg : getUser w.cookies with
      | none =>
        simp only [GET, hjar, hg, hb] at hc
        simp at hc
      | some u =>
        simp only [GET, hjar, hg, hb] at hc
        cases hp : prodFlags env with
        | false => simp [hp] at hc
        | true => simp [hp] at hc
    · cases hg : getUser w.cookies with
      | none => simp [GET, hjar, hg]
      | some u => simp [GET, hjar, hg]
    · cases hg : getUser w.cookies with
      | none =>
        simp only [GET, hjar, hg, hb]
        simp
      | some u =>
        simp only [GET, hjar, hg, hb]
        simp

end Cap
